import Mathlib

/-!
Shallow embedding of the evaluation fan-out and consensus aggregation engine of
`ai-verify/ai_verification_system.py` (class `AgenticVerificationSystem`).

Conventions of the embedding:
* Python floats are modelled as rationals (`ℚ`); all constants of the source
  (0.05, 0.6, 0.8, ...) are exactly representable, so the arithmetic the
  claims are about is unchanged.
* A judge (one of the five OpenRouter models) is reduced to the observation the
  Python code makes of it: either the call failed (timeout / transport error /
  empty or non-object response, all of which reach `_create_fallback_decision`),
  or `json.loads` produced an object, or the regex tier extracted an object
  from un-decodable text, or no structured object was obtainable and the raw
  text goes to `_parse_text_response`.  This is the `ModelOutcome` type.
* JSON values are modelled by `JsonValue`; Python booleans are folded into
  `JsonValue.num` (`True` is an `int` equal to `1` in Python, so every
  comparison and arithmetic operation the source performs on it agrees with
  the folding).  Values whose structure the source never inspects (null,
  nested objects, heterogeneous arrays) are collapsed into `JsonValue.other`.
* A Python exception that escapes the verification pipeline is modelled by
  `Except.error`.  Ill-typed `confidence` / `reasoning` / `evidence` fields
  are rejected when the `AgentDecision` is built; in Python the corresponding
  `TypeError` / `AttributeError` is raised at the first use of the field
  inside `_group_decision_maker`, which unconditionally evaluates
  `d.confidence > 0.0` and `d.reasoning.lower()` on every stored decision.
-/

namespace Report2Earn

/-- `class VerificationResult(str, Enum)` of the source. -/
inductive VerificationResult where
  | authentic
  | fake
  | uncertain
deriving DecidableEq, Repr

/-- The `.value` string of the `VerificationResult` enum. -/
def VerificationResult.value : VerificationResult → String
  | .authentic => "authentic"
  | .fake => "fake"
  | .uncertain => "uncertain"

/-- `@dataclass AgentDecision` of the source (an Opinion of one judge). -/
structure AgentDecision where
  agent_name : String
  decision : VerificationResult
  confidence : ℚ
  reasoning : String
  evidence : List String
deriving DecidableEq, Repr

/-- `@dataclass GroupDecision` of the source (the Verdict).  The
`web_search_results` field is irrelevant to the aggregation logic and elided. -/
structure GroupDecision where
  final_decision : VerificationResult
  confidence : ℚ
  consensus_score : ℚ
  individual_decisions : List AgentDecision
  group_reasoning : String
  popularity_score : ℚ := 0
  dynamic_reward : ℚ := 0
deriving DecidableEq, Repr

/-! ### String helpers (Python `in`, `str.lower`, `str.title`, `str.replace`) -/

/-- `needle.isPrefixOf hay || contains needle (tail hay)`: Boolean test that
`needle` occurs as a contiguous run inside `hay` (lists of characters). -/
def containsList (needle : List Char) : List Char → Bool
  | [] => needle.isEmpty
  | c :: rest => needle.isPrefixOf (c :: rest) || containsList needle rest

/-- Python `needle in hay` on strings (substring containment). -/
def strContains (hay needle : String) : Bool :=
  containsList needle.toList hay.toList

/-- Python `str.lower()` (ASCII case folding, character by character; defined
structurally over the character list so that it evaluates by reduction). -/
def lowerString (s : String) : String :=
  String.mk (s.data.map Char.toLower)

/-- Python `s[:n]` (first `n` characters). -/
def takeString (n : Nat) (s : String) : String :=
  String.mk (s.data.take n)

/-- Python `s.replace('_', ' ')`: single-character replacement is a character
map. -/
def underscoresToSpaces (s : String) : String :=
  String.mk (s.data.map (fun c => if c = '_' then ' ' else c))

/-- Python `str.title()`: the first letter of every run of letters is
upper-cased, the rest lower-cased. -/
def pyTitleGo : Bool → List Char → List Char
  | _, [] => []
  | prevAlpha, c :: rest =>
      (if c.isAlpha then (if prevAlpha then c.toLower else c.toUpper) else c)
        :: pyTitleGo c.isAlpha rest

/-- Python `str.title()`. -/
def pyTitle (s : String) : String :=
  String.mk (pyTitleGo false s.toList)

/-- The display name `f"Model: {model_name.replace('_', ' ').title()}"` used
for every per-model `AgentDecision`. -/
def agentDisplayName (model : String) : String :=
  "Model: " ++ pyTitle (underscoresToSpaces model)

/-- Two-decimal rendering of a rational, standing in for Python `f"{x:.2f}"`.
(The exact binary-float rounding of CPython is approximated by rational
rounding; no claim depends on the rendered digits.) -/
def fmt2 (q : ℚ) : String :=
  let scaled : Int := ⌊q * 100 + 1 / 2⌋
  let intPart : Int := scaled / 100
  let fracPart : Int := scaled % 100
  toString intPart ++ "." ++ (if fracPart < 10 then "0" else "") ++ toString fracPart

/-! ### JSON model -/

/-- Abstraction of the JSON values the source can observe.  Python booleans
fold into `num` (1 / 0); structure the source never inspects folds into
`other`. -/
inductive JsonValue where
  | str (s : String)
  | num (q : ℚ)
  | strList (l : List String)
  | other
deriving DecidableEq, Repr

/-- A decoded JSON object (`json.loads` result of object shape).  Keys of an
object produced by `json.loads` are unique; `lookup` and `set` below agree
with Python dict access on such objects. -/
abbrev JsonObj := List (String × JsonValue)

/-- Python `o[k]` / `k in o` (first binding). -/
def lookupField : JsonObj → String → Option JsonValue
  | [], _ => none
  | (k2, v) :: rest, k => if k2 = k then some v else lookupField rest k

/-- Python `o[k] = v` on a dict whose keys are unique: replace the binding in
place (field order preserved, other fields untouched).  The source only ever
assigns to keys that are present, so the absent-key behaviour (Python would
append the key) is never exercised. -/
def setField : JsonObj → String → JsonValue → JsonObj
  | [], _, _ => []
  | (k2, v2) :: rest, k, v =>
      if k2 = k then (k, v) :: setField rest k v
      else (k2, v2) :: setField rest k v

/-! ### Judge outcome and the result parser (`_verify_with_model` and friends) -/

/-- What the Python code observes of one judge call.

* `failure msg` — every path that reaches `_create_fallback_decision` before a
  structured object is obtained: `asyncio.TimeoutError` (`msg = "Timeout"`),
  a transport exception, an empty response, or a decodable response that is
  not an object (the field checks then raise and the outer handler at the end
  of `_verify_with_model` builds the fallback).
* `jsonObj o` — `json.loads` of the fence-stripped content succeeded with
  object `o` (tier 1).
* `fragment o` — tier 1 failed, the regex `\x7b.*\x7d` matched and
  `json.loads` of the match produced object `o` (tier 2).
* `noJson text` — both structured tiers failed; `text` is the raw
  `response.content` handed to `_parse_text_response` (tier 3). -/
inductive ModelOutcome where
  | failure (msg : String)
  | jsonObj (o : JsonObj)
  | fragment (o : JsonObj)
  | noJson (text : String)
deriving DecidableEq, Repr

/-- Whether the outcome goes through the fragment-extraction (regex) tier. -/
def ModelOutcome.isFragment : ModelOutcome → Bool
  | .fragment _ => true
  | _ => false

/-- A well-formed decision dict `{"decision": d, "confidence": c,
"reasoning": r, "evidence": e}` as the non-fragment tiers construct it. -/
def mkDecisionDict (decision : String) (confidence : ℚ) (reasoning : String)
    (evidence : List String) : JsonObj :=
  [("decision", .str decision), ("confidence", .num confidence),
   ("reasoning", .str reasoning), ("evidence", .strList evidence)]

/-- `_create_fallback_decision(model_name, error_msg)` of the source. -/
def createFallbackDecision (model errMsg : String) : JsonObj :=
  mkDecisionDict "uncertain" 0 ("Model " ++ model ++ " failed: " ++ errMsg) []

/-- `_parse_text_response(text, model_name)` of the source (tier 3). -/
def parseTextResponse (text _modelName : String) : JsonObj :=
  let textLower := lowerString text
  if strContains textLower "authentic" || strContains textLower "real" ||
      strContains textLower "genuine" then
    mkDecisionDict "authentic" (6/10)
      ("Parsed from text response: " ++ takeString 200 text ++ "...") []
  else if strContains textLower "fake" || strContains textLower "false" ||
      strContains textLower "misleading" then
    mkDecisionDict "fake" (6/10)
      ("Parsed from text response: " ++ takeString 200 text ++ "...") []
  else
    mkDecisionDict "uncertain" (3/10)
      ("Parsed from text response: " ++ takeString 200 text ++ "...") []

/-- The required-field list of the tier-1 validation. -/
def requiredFields : List String :=
  ["decision", "confidence", "reasoning", "evidence"]

/-- The three admissible decision strings. -/
def validDecisionStrings : List String := ["authentic", "fake", "uncertain"]

/-- Lines 628-630 of the source: an invalid decision value is overwritten
with `"uncertain"` (in Python a non-string value also fails the membership
test and is overwritten). -/
def fixDecision (o : JsonObj) : JsonObj :=
  match lookupField o "decision" with
  | some (.str s) =>
      if s ∈ validDecisionStrings then o
      else setField o "decision" (.str "uncertain")
  | _ => setField o "decision" (.str "uncertain")

/-- Lines 633-635 of the source: a non-numeric or out-of-range confidence is
overwritten with `0.5`. -/
def fixConfidence (o : JsonObj) : JsonObj :=
  match lookupField o "confidence" with
  | some (.num q) =>
      if 0 ≤ q ∧ q ≤ 1 then o else setField o "confidence" (.num (1/2))
  | _ => setField o "confidence" (.num (1/2))

/-- Tier-1 validation of `_verify_with_model`: missing required field gives
the fallback; otherwise the decision and confidence fields are repaired in
place.  `reasoning` and `evidence` are left untouched, whatever they hold. -/
def validateDecisionData (model : String) (o : JsonObj) : JsonObj :=
  if requiredFields.all (fun f => (lookupField o f).isSome) then
    fixConfidence (fixDecision o)
  else createFallbackDecision model "Invalid response format"

/-- `_verify_with_model` (wrapped by `_verify_with_model_safe`): the decision
dict one judge contributes, for each observable outcome of the call. -/
def verifyWithModel (model : String) : ModelOutcome → JsonObj
  | .failure msg => createFallbackDecision model msg
  | .jsonObj o => validateDecisionData model o
  | .fragment o => o
  | .noJson text => parseTextResponse text model

/-- `VerificationResult(s)` construction: `some` on the three enum values,
`none` (Python `ValueError`) otherwise. -/
def decOfString : String → Option VerificationResult
  | "authentic" => some .authentic
  | "fake" => some .fake
  | "uncertain" => some .uncertain
  | _ => none

/-- Construction of the `AgentDecision` from one decision dict
(`_multi_model_verification`, loop body).  This access is NOT guarded by any
handler in the source: a missing key raises `KeyError`, an invalid decision
string raises `ValueError` inside `VerificationResult(...)`, and an ill-typed
`confidence` / `reasoning` / `evidence` raises at its first use in
`_group_decision_maker` / `_generate_group_reasoning`; all of these are
modelled as `Except.error`. -/
def buildAgentDecision (model : String) (o : JsonObj) :
    Except String AgentDecision :=
  match lookupField o "decision" with
  | none => .error "KeyError: decision"
  | some (.str s) =>
      match decOfString s with
      | none => .error "ValueError: decision"
      | some dec =>
          match lookupField o "confidence" with
          | none => .error "KeyError: confidence"
          | some (.num conf) =>
              match lookupField o "reasoning" with
              | none => .error "KeyError: reasoning"
              | some (.str reas) =>
                  match lookupField o "evidence" with
                  | none => .error "KeyError: evidence"
                  | some (.strList evid) =>
                      .ok { agent_name := agentDisplayName model,
                            decision := dec, confidence := conf,
                            reasoning := reas, evidence := evid }
                  | some _ => .error "TypeError: evidence"
              | some _ => .error "TypeError: reasoning"
          | some _ => .error "TypeError: confidence"
  | some _ => .error "ValueError: decision"

/-- Build all stored decisions in dispatch order; like the Python loop, the
first raised exception aborts the whole node. -/
def buildAll : List (String × JsonObj) → Except String (List AgentDecision)
  | [] => Except.ok []
  | r :: rest => do
      let d ← buildAgentDecision r.1 r.2
      let ds ← buildAll rest
      Except.ok (d :: ds)

/-- The placeholder appended when no model produced a decision
(`_multi_model_verification`, lines 449-457). -/
def fallbackAgentDecision : AgentDecision :=
  { agent_name := "Fallback", decision := .uncertain, confidence := 0,
    reasoning := "All models failed", evidence := [] }

/-- `_multi_model_verification`: run every judge, build its `AgentDecision`,
fall back to the single placeholder when no decision was produced, and store
the results in the four state slots `fact_checker_decision`,
`image_analyst_decision`, `source_verifier_decision`,
`context_analyst_decision` (lines 459-463) — decisions past the fourth are
dropped. -/
def multiModelVerification (judges : List (String × ModelOutcome)) :
    Except String (List (Option AgentDecision)) := do
  let dicts := judges.map (fun j => (j.1, verifyWithModel j.1 j.2))
  let decisions ← buildAll dicts
  let decisions := if decisions.isEmpty then [fallbackAgentDecision] else decisions
  Except.ok [decisions.get? 0, decisions.get? 1, decisions.get? 2, decisions.get? 3]

/-! ### Consensus aggregator (`_group_decision_maker`) -/

/-- `min_models = 2` of `_group_decision_maker`. -/
def minModels : Nat := 2

/-- `min_confidence_threshold = 0.6` of `_group_decision_maker`. -/
def minConfidenceThreshold : ℚ := 6/10

/-- The successful/failed split of lines 724 and 850: confidence strictly
positive and neither `"failed"` nor `"timeout"` occurring in the lower-cased
reasoning text. -/
def isSuccessful (d : AgentDecision) : Bool :=
  decide (0 < d.confidence) &&
    !(strContains (lowerString d.reasoning) "failed") &&
    !(strContains (lowerString d.reasoning) "timeout")

/-- `sum(d.confidence for d in l)`. -/
def sumConf (l : List AgentDecision) : ℚ :=
  (l.map (fun d => d.confidence)).sum

/-- `sum(1 for d in l if d.decision == r)`. -/
def countFor (r : VerificationResult) (l : List AgentDecision) : Nat :=
  (l.filter (fun d => decide (d.decision = r))).length

/-- `sum(d.confidence for d in l if d.decision == r)`. -/
def weightFor (r : VerificationResult) (l : List AgentDecision) : ℚ :=
  sumConf (l.filter (fun d => decide (d.decision = r)))

/-- `[d for d in l if d.decision == r and d.confidence >= 0.6]`. -/
def highConfFor (r : VerificationResult) (l : List AgentDecision) :
    List AgentDecision :=
  l.filter (fun d => decide (d.decision = r) && decide (minConfidenceThreshold ≤ d.confidence))

/-- The decision tree of `_group_decision_maker` lines 767-805: weighted
voting first, count-based voting as fallback, each gated on the presence of a
high-confidence supporter, final default `uncertain`. -/
def determineFinalDecision (succ : List AgentDecision) : VerificationResult :=
  let authenticWeighted := weightFor .authentic succ
  let fakeWeighted := weightFor .fake succ
  let uncertainWeighted := weightFor .uncertain succ
  let authenticCount := countFor .authentic succ
  let fakeCount := countFor .fake succ
  let uncertainCount := countFor .uncertain succ
  if fakeWeighted > authenticWeighted ∧ fakeWeighted > uncertainWeighted then
    match highConfFor .fake succ with
    | [] => .uncertain
    | _ :: _ => .fake
  else if authenticWeighted > fakeWeighted ∧ authenticWeighted > uncertainWeighted then
    match highConfFor .authentic succ with
    | [] => .uncertain
    | _ :: _ => .authentic
  else if fakeCount > authenticCount ∧ fakeCount > uncertainCount then
    match highConfFor .fake succ with
    | [] => .uncertain
    | _ :: _ => .fake
  else if authenticCount > fakeCount ∧ authenticCount > uncertainCount then
    match highConfFor .authentic succ with
    | [] => .uncertain
    | _ :: _ => .authentic
  else .uncertain

/-- The rationale of the insufficient-quorum branch (line 739). -/
def insufficientMsg (successfulCount validCount : Nat) : String :=
  "Insufficient successful model responses (" ++ toString successfulCount ++
    "/" ++ toString validCount ++ "). Need at least " ++ toString minModels ++
    " successful models for reliable consensus."

/-- `_generate_group_reasoning(decisions, final_decision)` of the source. -/
def generateGroupReasoning (decisions : List AgentDecision)
    (finalDecision : VerificationResult) : String :=
  let successfulDecisions := decisions.filter isSuccessful
  let failedDecisions := decisions.filter (fun d => !(isSuccessful d))
  let parts0 := ["Group Decision: " ++ finalDecision.value.toUpper]
  let parts1 :=
    if successfulDecisions.isEmpty then parts0 else
      parts0 ++
        ["Consensus: " ++ toString (countFor .fake successfulDecisions) ++ " fake, " ++
            toString (countFor .authentic successfulDecisions) ++ " authentic, " ++
            toString (countFor .uncertain successfulDecisions) ++ " uncertain",
         "Successful Models: " ++ toString successfulDecisions.length ++ "/" ++
            toString decisions.length,
         "Confidence Weighted: Fake " ++ fmt2 (weightFor .fake successfulDecisions) ++
            ", Authentic " ++ fmt2 (weightFor .authentic successfulDecisions)]
  let parts2 :=
    if failedDecisions.isEmpty then parts1 else
      parts1 ++ (("\nFailed Models: " ++ toString failedDecisions.length) ::
        failedDecisions.map (fun d => "- " ++ d.agent_name ++ ": " ++ d.reasoning))
  let parts3 := parts2 ++ ["\nIndividual Agent Analysis:"]
  let parts4 := parts3 ++ (successfulDecisions.map (fun d =>
    let status := if d.decision = finalDecision then "✅" else "❌"
    let line1 := "\n" ++ status ++ " " ++ d.agent_name ++ ": " ++
      d.decision.value.toUpper ++ " (confidence: " ++ fmt2 d.confidence ++ ")"
    let line2 := "Reasoning: " ++ d.reasoning
    if d.evidence.isEmpty then [line1, line2]
    else [line1, line2, "Evidence: " ++ String.intercalate ", " d.evidence])).flatten
  String.intercalate "\n" parts4

/-- `_calculate_dynamic_reward(popularity_score)` of the source: base fee
0.05, multiplier `1 + 4 * popularity`, capped at 1. -/
def calculateDynamicReward (popularityScore : ℚ) : ℚ :=
  let baseFee : ℚ := 1/20
  let popularityMultiplier : ℚ := 1 + popularityScore * 4
  let dynamicReward := baseFee * popularityMultiplier
  min dynamicReward 1

/-- The quorum-met tail of `_group_decision_maker` (lines 746-838), applied to
the valid (non-`None`) stored decisions. -/
def aggregateMain (validDecisions : List AgentDecision) (popularity : ℚ) :
    GroupDecision :=
  let successfulDecisions := validDecisions.filter isSuccessful
  let totalSuccessful := successfulDecisions.length
  let consensusScore : ℚ :=
    ((max (countFor .authentic successfulDecisions)
        (countFor .fake successfulDecisions) : ℕ) : ℚ) / (totalSuccessful : ℚ)
  let finalDecision := determineFinalDecision successfulDecisions
  let alignedDecisions :=
    successfulDecisions.filter (fun d => decide (d.decision = finalDecision))
  let avgConfidence :=
    match alignedDecisions with
    | [] => sumConf successfulDecisions / (successfulDecisions.length : ℚ)
    | _ :: _ => sumConf alignedDecisions / (alignedDecisions.length : ℚ)
  let dynamicReward :=
    if finalDecision = .fake then calculateDynamicReward popularity else 0
  { final_decision := finalDecision, confidence := avgConfidence,
    consensus_score := consensusScore,
    individual_decisions := validDecisions,
    group_reasoning := generateGroupReasoning validDecisions finalDecision,
    popularity_score := popularity, dynamic_reward := dynamicReward }

/-- `_group_decision_maker`: from the four stored slots (`None` filtered out)
and the state's popularity score to the final `GroupDecision`.  Mirrors the
source branch for branch; note that the two early-return branches leave
`popularity_score` and `dynamic_reward` at their dataclass defaults `0.0`. -/
def groupDecisionMaker (slots : List (Option AgentDecision)) (popularity : ℚ) :
    GroupDecision :=
  if slots.reduceOption = [] then
    { final_decision := .uncertain, confidence := 0, consensus_score := 0,
      individual_decisions := [],
      group_reasoning := "No valid decisions from models" }
  else if (slots.reduceOption.filter isSuccessful).length < minModels then
    { final_decision := .uncertain, confidence := 0, consensus_score := 0,
      individual_decisions := slots.reduceOption,
      group_reasoning :=
        insufficientMsg (slots.reduceOption.filter isSuccessful).length
          slots.reduceOption.length }
  else aggregateMain slots.reduceOption popularity

/-- The dispatch-and-aggregate pipeline: `_multi_model_verification` followed
by `_group_decision_maker` (the two popularity nodes in between only produce
the `popularity` input taken here as a parameter). -/
def runVerification (judges : List (String × ModelOutcome)) (popularity : ℚ) :
    Except String GroupDecision := do
  let slots ← multiModelVerification judges
  Except.ok (groupDecisionMaker slots popularity)

/-! ### Popularity heuristic (`_calculate_popularity_score`) -/

/-- The viral-keyword list of `_calculate_popularity_score`. -/
def viralKeywords : List String :=
  ["breaking", "exclusive", "shocking", "amazing", "incredible",
   "unbelievable", "must see", "viral", "trending", "hot",
   "urgent", "alert", "warning", "scandal", "leaked"]

/-- The emotional-keyword list of `_calculate_popularity_score`. -/
def emotionalKeywords : List String :=
  ["love", "hate", "angry", "excited", "scared", "surprised",
   "disgusted", "happy", "sad", "furious", "thrilled"]

/-- `sum(1 for keyword in kws if keyword in t)`. -/
def countKeywords (kws : List String) (t : String) : Nat :=
  (kws.filter (fun k => strContains t k)).length

/-- `_calculate_popularity_score` on the state's `content_text`. -/
def calculatePopularityScore (contentText : String) : ℚ :=
  let lowered := lowerString contentText
  let viralCount := countKeywords viralKeywords lowered
  let textLength := contentText.length
  let lengthScore : ℚ :=
    if 100 ≤ textLength ∧ textLength ≤ 500 then 8/10
    else if 50 ≤ textLength ∧ textLength ≤ 1000 then 6/10
    else if 1000 < textLength then 4/10
    else 1/2
  let emotionalCount := countKeywords emotionalKeywords lowered
  let baseScore : ℚ := 3/10
  let viralBonus := min ((viralCount : ℚ) * (1/10)) (3/10)
  let emotionalBonus := min ((emotionalCount : ℚ) * (1/20)) (2/10)
  let lengthBonus := lengthScore * (2/10)
  let popularityScore := baseScore + viralBonus + emotionalBonus + lengthBonus
  max 0 (min 1 popularityScore)

/-- The default popularity score `0.5` of the `_analyze_popularity` error
path. -/
def popularityErrorDefault : ℚ := 1/2

/-! ### Safety predicates and concrete judge outcomes used in the theorems -/

/-- Sufficient well-typedness condition on a fragment-tier object for the
opinion construction not to raise. -/
def objWellTyped (o : JsonObj) : Prop :=
  (∃ s, lookupField o "decision" = some (.str s) ∧ s ∈ validDecisionStrings) ∧
  (∃ q, lookupField o "confidence" = some (.num q)) ∧
  (∃ s, lookupField o "reasoning" = some (.str s)) ∧
  (∃ l, lookupField o "evidence" = some (.strList l))

/-- Sufficient condition on a judge outcome for its opinion construction not
to raise: fragment-tier objects must be fully well typed; strict-tier objects
that pass the required-field check must carry a string reasoning and a
string-list evidence (the tier-1 validation repairs decision and confidence
but not these); failures and heuristic parses are always safe. -/
def outcomeSafe : ModelOutcome → Prop
  | .failure _ => True
  | .noJson _ => True
  | .jsonObj o =>
      (requiredFields.all (fun f => (lookupField o f).isSome)) = true →
        (∃ s, lookupField o "reasoning" = some (.str s)) ∧
        (∃ l, lookupField o "evidence" = some (.strList l))
  | .fragment o => objWellTyped o

/-- A judge that answers with a well-formed structured verdict `{fake, 0.8}`. -/
def fakeOut : ModelOutcome :=
  .jsonObj (mkDecisionDict "fake" (4/5) "Contradicted by reliable sources." [])

/-- A judge that answers with a well-formed structured verdict
`{authentic, 0.9}`. -/
def authOut : ModelOutcome :=
  .jsonObj (mkDecisionDict "authentic" (9/10) "Corroborated by reliable sources." [])

/-- A judge whose call exceeds its deadline. -/
def timeoutOut : ModelOutcome := .failure "Timeout"

/-- A judge that answers with a well-formed structured verdict whose reasoning
text happens to contain the word "failed". -/
def trickyOut : ModelOutcome :=
  .jsonObj (mkDecisionDict "fake" (4/5) "The article failed its fact check." [])

/-- Five judges, all answering with valid structured verdicts. -/
def c1Judges : List (String × ModelOutcome) :=
  [("m1", fakeOut), ("m2", fakeOut), ("m3", fakeOut), ("m4", authOut),
   ("m5", authOut)]

/-- The spec scenario (3 fake at 0.8, 1 authentic at 0.9, 1 timeout) with the
timed-out judge dispatched last. -/
def c9TimeoutLast : List (String × ModelOutcome) :=
  [("m1", fakeOut), ("m2", fakeOut), ("m3", fakeOut), ("m4", authOut),
   ("m5", timeoutOut)]

/-- The same multiset of outcomes with the timed-out judge dispatched first
and the authentic judge last. -/
def c9TimeoutFirst : List (String × ModelOutcome) :=
  [("m1", timeoutOut), ("m2", fakeOut), ("m3", fakeOut), ("m4", fakeOut),
   ("m5", authOut)]

/-- Two concrete high-confidence fake opinions (for witness instantiation). -/
def opFakeA : AgentDecision :=
  { agent_name := "Model: M1", decision := .fake, confidence := 4/5,
    reasoning := "Contradicted by reliable sources.", evidence := [] }

/-- A second concrete high-confidence fake opinion. -/
def opFakeB : AgentDecision :=
  { agent_name := "Model: M2", decision := .fake, confidence := 7/10,
    reasoning := "Inconsistent with public records.", evidence := [] }

/-! ### Helper lemmas -/

theorem lookup_set_self {o : JsonObj} {k : String} (v : JsonValue)
    (h : (lookupField o k).isSome) : lookupField (setField o k v) k = some v := by
  induction o with
  | nil => simp [lookupField] at h
  | cons p rest ih =>
      obtain ⟨k2, v2⟩ := p
      by_cases hk : k2 = k
      · simp [setField, lookupField, hk]
      · rw [lookupField, if_neg hk] at h
        rw [setField, if_neg hk, lookupField, if_neg hk]
        exact ih h

theorem lookup_set_ne {o : JsonObj} {k k2 : String} (v : JsonValue)
    (h : k2 ≠ k) : lookupField (setField o k v) k2 = lookupField o k2 := by
  induction o with
  | nil => simp [setField, lookupField]
  | cons p rest ih =>
      obtain ⟨k3, v3⟩ := p
      by_cases hk : k3 = k
      · subst hk
        rw [setField, if_pos rfl, lookupField, if_neg (Ne.symm h),
          lookupField, if_neg ?_]
        · exact ih
        · intro hc; exact h (hc ▸ rfl)
      · rw [setField, if_neg hk, lookupField, lookupField]
        by_cases hk2 : k3 = k2
        · rw [if_pos hk2, if_pos hk2]
        · rw [if_neg hk2, if_neg hk2]; exact ih

theorem build_mk_authentic (m : String) (c : ℚ) (r : String) (e : List String) :
    buildAgentDecision m (mkDecisionDict "authentic" c r e) =
      Except.ok ⟨agentDisplayName m, .authentic, c, r, e⟩ := rfl

theorem build_mk_fake (m : String) (c : ℚ) (r : String) (e : List String) :
    buildAgentDecision m (mkDecisionDict "fake" c r e) =
      Except.ok ⟨agentDisplayName m, .fake, c, r, e⟩ := rfl

theorem build_mk_uncertain (m : String) (c : ℚ) (r : String) (e : List String) :
    buildAgentDecision m (mkDecisionDict "uncertain" c r e) =
      Except.ok ⟨agentDisplayName m, .uncertain, c, r, e⟩ := rfl

theorem requiredFields_isSome {o : JsonObj}
    (hp : (requiredFields.all (fun f => (lookupField o f).isSome)) = true) :
    (lookupField o "decision").isSome ∧ (lookupField o "confidence").isSome ∧
      (lookupField o "reasoning").isSome ∧ (lookupField o "evidence").isSome := by
  simp only [requiredFields, List.all_cons, List.all_nil, Bool.and_eq_true,
    Bool.and_true] at hp
  exact ⟨hp.1, hp.2.1, hp.2.2.1, hp.2.2.2⟩

theorem lookup_fixDecision_ne (o : JsonObj) {k : String} (h : k ≠ "decision") :
    lookupField (fixDecision o) k = lookupField o k := by
  unfold fixDecision
  rcases h1 : lookupField o "decision" with _ | v
  · exact lookup_set_ne _ h
  · rcases v with s | q | l | _ <;> dsimp only
    case str =>
      by_cases hv : s ∈ validDecisionStrings
      · rw [if_pos hv]
      · rw [if_neg hv]; exact lookup_set_ne _ h
    all_goals exact lookup_set_ne _ h

theorem lookup_fixDecision_decision (o : JsonObj)
    (hd : (lookupField o "decision").isSome) :
    ∃ s, lookupField (fixDecision o) "decision" = some (.str s) ∧
      s ∈ validDecisionStrings := by
  unfold fixDecision
  rcases h1 : lookupField o "decision" with _ | v
  · rw [h1] at hd; simp at hd
  · have hd2 : (lookupField o "decision").isSome := hd
    rcases v with s | q | l | _ <;> dsimp only
    case str =>
      by_cases hv : s ∈ validDecisionStrings
      · rw [if_pos hv]; exact ⟨s, h1, hv⟩
      · rw [if_neg hv]
        exact ⟨"uncertain", lookup_set_self _ hd2, by decide⟩
    all_goals exact ⟨"uncertain", lookup_set_self _ hd2, by decide⟩

theorem lookup_fixConfidence_ne (o : JsonObj) {k : String}
    (h : k ≠ "confidence") :
    lookupField (fixConfidence o) k = lookupField o k := by
  unfold fixConfidence
  rcases h1 : lookupField o "confidence" with _ | v
  · exact lookup_set_ne _ h
  · rcases v with s | q | l | _ <;> dsimp only
    case num =>
      by_cases hq : 0 ≤ q ∧ q ≤ 1
      · rw [if_pos hq]
      · rw [if_neg hq]; exact lookup_set_ne _ h
    all_goals exact lookup_set_ne _ h

theorem lookup_fixConfidence_conf (o : JsonObj)
    (hc : (lookupField o "confidence").isSome) :
    ∃ q, lookupField (fixConfidence o) "confidence" = some (.num q) ∧
      0 ≤ q ∧ q ≤ 1 := by
  unfold fixConfidence
  rcases h1 : lookupField o "confidence" with _ | v
  · rw [h1] at hc; simp at hc
  · have hc2 : (lookupField o "confidence").isSome := hc
    rcases v with s | q | l | _ <;> dsimp only
    case num =>
      by_cases hq : 0 ≤ q ∧ q ≤ 1
      · rw [if_pos hq]; exact ⟨q, h1, hq⟩
      · rw [if_neg hq]
        exact ⟨1/2, lookup_set_self _ hc2, by norm_num⟩
    all_goals exact ⟨1/2, lookup_set_self _ hc2, by norm_num⟩

theorem validate_decision_valid (m : String) (o : JsonObj)
    (hp : (requiredFields.all (fun f => (lookupField o f).isSome)) = true) :
    ∃ s, lookupField (validateDecisionData m o) "decision" = some (.str s) ∧
      s ∈ validDecisionStrings := by
  obtain ⟨hd, _, _, _⟩ := requiredFields_isSome hp
  unfold validateDecisionData
  rw [if_pos hp]
  obtain ⟨s, hs, hv⟩ := lookup_fixDecision_decision o hd
  exact ⟨s, by rw [lookup_fixConfidence_ne _ (by decide), hs], hv⟩

theorem validate_confidence_bounds (m : String) (o : JsonObj)
    (hp : (requiredFields.all (fun f => (lookupField o f).isSome)) = true) :
    ∃ q, lookupField (validateDecisionData m o) "confidence" = some (.num q) ∧
      0 ≤ q ∧ q ≤ 1 := by
  obtain ⟨_, hc, _, _⟩ := requiredFields_isSome hp
  unfold validateDecisionData
  rw [if_pos hp]
  refine lookup_fixConfidence_conf _ ?_
  rw [lookup_fixDecision_ne o (by decide)]
  exact hc

theorem validate_preserve (m : String) (o : JsonObj) {k : String}
    (hp : (requiredFields.all (fun f => (lookupField o f).isSome)) = true)
    (h1 : k ≠ "decision") (h2 : k ≠ "confidence") :
    lookupField (validateDecisionData m o) k = lookupField o k := by
  unfold validateDecisionData
  rw [if_pos hp, lookup_fixConfidence_ne _ h2, lookup_fixDecision_ne o h1]

theorem buildAgentDecision_ok (m : String) (o : JsonObj)
    (hd : ∃ s, lookupField o "decision" = some (.str s) ∧ s ∈ validDecisionStrings)
    (hc : ∃ q, lookupField o "confidence" = some (.num q))
    (hr : ∃ s, lookupField o "reasoning" = some (.str s))
    (he : ∃ l, lookupField o "evidence" = some (.strList l)) :
    ∃ d, buildAgentDecision m o = Except.ok d := by
  obtain ⟨s, hs, hv⟩ := hd
  obtain ⟨q, hq⟩ := hc
  obtain ⟨r, hr2⟩ := hr
  obtain ⟨e, he2⟩ := he
  unfold buildAgentDecision
  rw [hs, hq, hr2, he2]
  simp only [validDecisionStrings, List.mem_cons, List.not_mem_nil, or_false] at hv
  rcases hv with hv | hv | hv <;> subst hv <;> exact ⟨_, rfl⟩

theorem build_confidence_eq {m : String} {o : JsonObj} {d : AgentDecision}
    (h : buildAgentDecision m o = Except.ok d) :
    lookupField o "confidence" = some (.num d.confidence) := by
  unfold buildAgentDecision at h
  rcases h1 : lookupField o "decision" with _ | v <;> rw [h1] at h <;>
    (try dsimp only at h)
  · exact Except.noConfusion h
  · rcases v with s | q | l | _ <;> (try dsimp only at h)
    case str =>
      rcases h2 : decOfString s with _ | r <;> rw [h2] at h <;>
        (try dsimp only at h)
      · exact Except.noConfusion h
      · rcases h3 : lookupField o "confidence" with _ | v2 <;> rw [h3] at h <;>
          (try dsimp only at h)
        · exact Except.noConfusion h
        · rcases v2 with s2 | q2 | l2 | _ <;> (try dsimp only at h)
          case num =>
            rcases h4 : lookupField o "reasoning" with _ | v3 <;>
              rw [h4] at h <;> (try dsimp only at h)
            · exact Except.noConfusion h
            · rcases v3 with s3 | q3 | l3 | _ <;> (try dsimp only at h)
              case str =>
                rcases h5 : lookupField o "evidence" with _ | v4 <;>
                  rw [h5] at h <;> (try dsimp only at h)
                · exact Except.noConfusion h
                · rcases v4 with s4 | q4 | l4 | _ <;> (try dsimp only at h)
                  case strList =>
                    injection h with h
                    subst h
                    rfl
                  all_goals exact Except.noConfusion h
              all_goals exact Except.noConfusion h
          all_goals exact Except.noConfusion h
    all_goals exact Except.noConfusion h

theorem build_verify_ok (m : String) (out : ModelOutcome)
    (hsafe : outcomeSafe out) :
    ∃ d, buildAgentDecision m (verifyWithModel m out) = Except.ok d := by
  cases out with
  | failure msg => exact ⟨_, build_mk_uncertain m 0 _ []⟩
  | noJson text =>
      show ∃ d, buildAgentDecision m (parseTextResponse text m) = Except.ok d
      unfold parseTextResponse
      dsimp only
      split_ifs
      · exact ⟨_, build_mk_authentic m _ _ []⟩
      · exact ⟨_, build_mk_fake m _ _ []⟩
      · exact ⟨_, build_mk_uncertain m _ _ []⟩
  | fragment o =>
      obtain ⟨hd, hc, hr, he⟩ := hsafe
      exact buildAgentDecision_ok m o hd hc hr he
  | jsonObj o =>
      show ∃ d, buildAgentDecision m (validateDecisionData m o) = Except.ok d
      by_cases hp : (requiredFields.all (fun f => (lookupField o f).isSome)) = true
      · obtain ⟨hre, hev⟩ := hsafe hp
        refine buildAgentDecision_ok m _ (validate_decision_valid m o hp)
          ?_ ?_ ?_
        · obtain ⟨q, hq, _⟩ := validate_confidence_bounds m o hp
          exact ⟨q, hq⟩
        · obtain ⟨s, hsr⟩ := hre
          exact ⟨s, by
            rw [validate_preserve m o hp (by decide) (by decide)]; exact hsr⟩
        · obtain ⟨l, hl⟩ := hev
          exact ⟨l, by
            rw [validate_preserve m o hp (by decide) (by decide)]; exact hl⟩
      · unfold validateDecisionData
        rw [if_neg hp]
        exact ⟨_, build_mk_uncertain m 0 _ []⟩

theorem buildAll_ok (l : List (String × JsonObj))
    (h : ∀ r ∈ l, ∃ d, buildAgentDecision r.1 r.2 = Except.ok d) :
    ∃ ds, buildAll l = Except.ok ds := by
  induction l with
  | nil => exact ⟨[], rfl⟩
  | cons r rest ih =>
      obtain ⟨d, hd⟩ := h r (List.mem_cons_self r rest)
      obtain ⟨ds, hds⟩ := ih (fun x hx => h x (List.mem_cons_of_mem _ hx))
      refine ⟨d :: ds, ?_⟩
      unfold buildAll
      rw [hd, hds]
      rfl

theorem mem_highConfFor {r : VerificationResult} {l : List AgentDecision} {d}
    (h : d ∈ highConfFor r l) :
    d ∈ l ∧ d.decision = r ∧ minConfidenceThreshold ≤ d.confidence := by
  unfold highConfFor at h
  rw [List.mem_filter] at h
  obtain ⟨h1, h2⟩ := h
  simp only [Bool.and_eq_true, decide_eq_true_eq] at h2
  exact ⟨h1, h2.1, h2.2⟩

theorem determine_high_conf {succ : List AgentDecision} {r : VerificationResult}
    (hr : r ≠ .uncertain) (h : determineFinalDecision succ = r) :
    ∃ d ∈ succ, d.decision = r ∧ minConfidenceThreshold ≤ d.confidence := by
  unfold determineFinalDecision at h
  dsimp only at h
  split_ifs at h with h1 h2 h3 h4
  case pos =>
    rcases hh : highConfFor .fake succ with _ | ⟨d, tl⟩ <;> rw [hh] at h <;>
      dsimp only at h
    · exact absurd h.symm hr
    · obtain ⟨hmem, hdec, hconf⟩ :=
        mem_highConfFor (hh ▸ List.mem_cons_self d tl)
      exact ⟨d, hmem, h ▸ hdec, hconf⟩
  case pos =>
    rcases hh : highConfFor .authentic succ with _ | ⟨d, tl⟩ <;> rw [hh] at h <;>
      dsimp only at h
    · exact absurd h.symm hr
    · obtain ⟨hmem, hdec, hconf⟩ :=
        mem_highConfFor (hh ▸ List.mem_cons_self d tl)
      exact ⟨d, hmem, h ▸ hdec, hconf⟩
  case pos =>
    rcases hh : highConfFor .fake succ with _ | ⟨d, tl⟩ <;> rw [hh] at h <;>
      dsimp only at h
    · exact absurd h.symm hr
    · obtain ⟨hmem, hdec, hconf⟩ :=
        mem_highConfFor (hh ▸ List.mem_cons_self d tl)
      exact ⟨d, hmem, h ▸ hdec, hconf⟩
  case pos =>
    rcases hh : highConfFor .authentic succ with _ | ⟨d, tl⟩ <;> rw [hh] at h <;>
      dsimp only at h
    · exact absurd h.symm hr
    · obtain ⟨hmem, hdec, hconf⟩ :=
        mem_highConfFor (hh ▸ List.mem_cons_self d tl)
      exact ⟨d, hmem, h ▸ hdec, hconf⟩
  case neg => exact absurd h.symm hr

theorem sumConf_nonneg {l : List AgentDecision}
    (h : ∀ d ∈ l, 0 ≤ d.confidence) : 0 ≤ sumConf l := by
  induction l with
  | nil => simp [sumConf]
  | cons d rest ih =>
      have h1 := h d (List.mem_cons_self d rest)
      have h2 := ih (fun x hx => h x (List.mem_cons_of_mem _ hx))
      simp only [sumConf, List.map_cons, List.sum_cons]
      simp only [sumConf] at h2
      linarith

theorem sumConf_le_length {l : List AgentDecision}
    (h : ∀ d ∈ l, d.confidence ≤ 1) : sumConf l ≤ (l.length : ℚ) := by
  induction l with
  | nil => simp [sumConf]
  | cons d rest ih =>
      have h1 := h d (List.mem_cons_self d rest)
      have h2 := ih (fun x hx => h x (List.mem_cons_of_mem _ hx))
      simp only [sumConf, List.map_cons, List.sum_cons, List.length_cons]
      simp only [sumConf] at h2
      push_cast
      linarith

theorem avg_conf_bounds {l : List AgentDecision} (hne : l ≠ [])
    (hb : ∀ d ∈ l, 0 ≤ d.confidence ∧ d.confidence ≤ 1) :
    0 ≤ sumConf l / (l.length : ℚ) ∧ sumConf l / (l.length : ℚ) ≤ 1 := by
  have hlen : 0 < (l.length : ℚ) := by
    exact_mod_cast List.length_pos.mpr hne
  constructor
  · exact div_nonneg (sumConf_nonneg (fun d hd => (hb d hd).1)) hlen.le
  · rw [div_le_one hlen]
    exact sumConf_le_length (fun d hd => (hb d hd).2)

theorem aggregateMain_final (v : List AgentDecision) (p : ℚ) :
    (aggregateMain v p).final_decision =
      determineFinalDecision (v.filter isSuccessful) := rfl

theorem aggregateMain_individual (v : List AgentDecision) (p : ℚ) :
    (aggregateMain v p).individual_decisions = v := rfl

theorem aggregateMain_consensus (v : List AgentDecision) (p : ℚ) :
    (aggregateMain v p).consensus_score =
      ((max (countFor .authentic (v.filter isSuccessful))
          (countFor .fake (v.filter isSuccessful)) : ℕ) : ℚ) /
        ((v.filter isSuccessful).length : ℚ) := rfl

theorem aggregateMain_reward (v : List AgentDecision) (p : ℚ) :
    (aggregateMain v p).dynamic_reward =
      if determineFinalDecision (v.filter isSuccessful) = .fake then
        calculateDynamicReward p
      else 0 := rfl

theorem groupDecisionMaker_empty (slots : List (Option AgentDecision)) (p : ℚ)
    (h : slots.reduceOption = []) :
    groupDecisionMaker slots p =
      { final_decision := .uncertain, confidence := 0, consensus_score := 0,
        individual_decisions := [],
        group_reasoning := "No valid decisions from models" } := by
  unfold groupDecisionMaker
  rw [if_pos h]

theorem groupDecisionMaker_quorum (slots : List (Option AgentDecision)) (p : ℚ)
    (h1 : slots.reduceOption ≠ [])
    (h2 : (slots.reduceOption.filter isSuccessful).length < minModels) :
    groupDecisionMaker slots p =
      { final_decision := .uncertain, confidence := 0, consensus_score := 0,
        individual_decisions := slots.reduceOption,
        group_reasoning :=
          insufficientMsg (slots.reduceOption.filter isSuccessful).length
            slots.reduceOption.length } := by
  unfold groupDecisionMaker
  rw [if_neg h1, if_pos h2]

theorem groupDecisionMaker_main (slots : List (Option AgentDecision)) (p : ℚ)
    (h1 : slots.reduceOption ≠ [])
    (h2 : ¬ (slots.reduceOption.filter isSuccessful).length < minModels) :
    groupDecisionMaker slots p = aggregateMain slots.reduceOption p := by
  unfold groupDecisionMaker
  rw [if_neg h1, if_neg h2]

theorem countFor_le (r : VerificationResult) (l : List AgentDecision) :
    countFor r l ≤ l.length :=
  List.length_filter_le _ _

/-! ### Claim theorems -/

/-- C1: the code dispatches 5 judges and every judge produces a decision, but
only four slots (`fact_checker_decision` .. `context_analyst_decision`) exist
in the state, so the verdict built from 5 valid judge answers carries exactly
4 opinions, not 5 — the fifth judge's opinion is silently dropped. -/
theorem claim1_stored_opinions_capped :
    c1Judges.length = 5 ∧
    (runVerification c1Judges 0).toOption.map
      (fun v => v.individual_decisions.length) = some 4 := by
  refine ⟨rfl, ?_⟩
  with_unfolding_all rfl

/-- C9: with the spec scenario (3 x `{fake, 0.8}`, 1 x `{authentic, 0.9}`,
1 timeout) and the timed-out judge dispatched last, the verdict matches the
claimed numbers (4 successful, weight 2.4 vs 0.9, decision `fake`,
confidence 0.8, consensus 3/4); but with the timed-out judge dispatched first
the authentic opinion falls off the fourth slot and the consensus score
becomes 1, so the outcome is not independent of judge position. -/
theorem claim9_scenario_position_dependent :
    ((runVerification c9TimeoutLast 0).toOption.map
      (fun v => (v.final_decision, v.confidence, v.consensus_score,
        (v.individual_decisions.filter isSuccessful).length,
        weightFor .fake (v.individual_decisions.filter isSuccessful),
        weightFor .authentic (v.individual_decisions.filter isSuccessful))) =
      some (VerificationResult.fake, 4/5, 3/4, 4, 12/5, 9/10)) ∧
    ((runVerification c9TimeoutFirst 0).toOption.map
      (fun v => (v.final_decision, v.consensus_score)) =
      some (VerificationResult.fake, 1)) := by
  constructor
  · with_unfolding_all rfl
  · with_unfolding_all rfl

/-- C2 counterexample: a fragment-tier (regex-extracted) object is returned
without any validation, so the opinion built from
`\x7b"decision": "fake", "confidence": 7, ...\x7d` carries confidence 7,
outside `[0, 1]`. -/
theorem claim2_counterexample :
    ((buildAgentDecision "m"
        (verifyWithModel "m"
          (.fragment (mkDecisionDict "fake" 7 "ok" [])))).toOption.map
      (fun d => d.confidence)) = some 7 ∧ ¬ ((7 : ℚ) ≤ 1) := by
  constructor
  · with_unfolding_all rfl
  · norm_num

/-- C2 (amended): every opinion built from a non-fragment outcome has
confidence in `[0, 1]`; every verdict's consensus score is in `[0, 1]`; and
the verdict's confidence is in `[0, 1]` whenever all stored opinions'
confidences are (in particular whenever no opinion came from the unvalidated
fragment tier). -/
theorem claim2_confidence_bounds :
    (∀ (m : String) (out : ModelOutcome) (d : AgentDecision),
      out.isFragment = false →
      buildAgentDecision m (verifyWithModel m out) = Except.ok d →
      0 ≤ d.confidence ∧ d.confidence ≤ 1) ∧
    (∀ (slots : List (Option AgentDecision)) (pop : ℚ),
      0 ≤ (groupDecisionMaker slots pop).consensus_score ∧
      (groupDecisionMaker slots pop).consensus_score ≤ 1) ∧
    (∀ (slots : List (Option AgentDecision)) (pop : ℚ),
      (∀ d ∈ slots.reduceOption, 0 ≤ d.confidence ∧ d.confidence ≤ 1) →
      0 ≤ (groupDecisionMaker slots pop).confidence ∧
      (groupDecisionMaker slots pop).confidence ≤ 1) := by
  refine ⟨?_, ?_, ?_⟩
  · intro m out d hfrag hok
    cases out with
    | fragment o => simp [ModelOutcome.isFragment] at hfrag
    | failure msg =>
        rw [show verifyWithModel m (.failure msg) =
          createFallbackDecision m msg from rfl] at hok
        unfold createFallbackDecision at hok
        rw [build_mk_uncertain] at hok
        injection hok with h2
        rw [← h2]
        norm_num
    | noJson text =>
        rw [show verifyWithModel m (.noJson text) =
          parseTextResponse text m from rfl] at hok
        unfold parseTextResponse at hok
        dsimp only at hok
        split_ifs at hok
        · rw [build_mk_authentic] at hok
          injection hok with h2
          rw [← h2]
          norm_num
        · rw [build_mk_fake] at hok
          injection hok with h2
          rw [← h2]
          norm_num
        · rw [build_mk_uncertain] at hok
          injection hok with h2
          rw [← h2]
          norm_num
    | jsonObj o =>
        rw [show verifyWithModel m (.jsonObj o) =
          validateDecisionData m o from rfl] at hok
        by_cases hp :
          (requiredFields.all (fun f => (lookupField o f).isSome)) = true
        · obtain ⟨q, hq, hq0, hq1⟩ := validate_confidence_bounds m o hp
          have hc := build_confidence_eq hok
          rw [hq] at hc
          simp only [Option.some.injEq, JsonValue.num.injEq] at hc
          rw [← hc]
          exact ⟨hq0, hq1⟩
        · unfold validateDecisionData at hok
          rw [if_neg hp] at hok
          unfold createFallbackDecision at hok
          rw [build_mk_uncertain] at hok
          injection hok with h2
          rw [← h2]
          norm_num
  · intro slots pop
    by_cases h1 : slots.reduceOption = []
    · rw [groupDecisionMaker_empty slots pop h1]
      exact ⟨le_rfl, zero_le_one⟩
    · by_cases h2 : (slots.reduceOption.filter isSuccessful).length < minModels
      · rw [groupDecisionMaker_quorum slots pop h1 h2]
        exact ⟨le_rfl, zero_le_one⟩
      · rw [groupDecisionMaker_main slots pop h1 h2, aggregateMain_consensus]
        have hlen : minModels ≤ (slots.reduceOption.filter isSuccessful).length :=
          le_of_not_lt h2
        have hpos :
            (0 : ℚ) < ((slots.reduceOption.filter isSuccessful).length : ℚ) := by
          have : 0 < (slots.reduceOption.filter isSuccessful).length :=
            lt_of_lt_of_le (by norm_num [minModels]) hlen
          exact_mod_cast this
        constructor
        · exact div_nonneg (Nat.cast_nonneg _) hpos.le
        · rw [div_le_one hpos]
          have h3 : max (countFor .authentic (slots.reduceOption.filter isSuccessful))
              (countFor .fake (slots.reduceOption.filter isSuccessful)) ≤
              (slots.reduceOption.filter isSuccessful).length :=
            max_le (countFor_le _ _) (countFor_le _ _)
          exact_mod_cast h3
  · intro slots pop hb
    by_cases h1 : slots.reduceOption = []
    · rw [groupDecisionMaker_empty slots pop h1]
      exact ⟨le_rfl, zero_le_one⟩
    · by_cases h2 : (slots.reduceOption.filter isSuccessful).length < minModels
      · rw [groupDecisionMaker_quorum slots pop h1 h2]
        exact ⟨le_rfl, zero_le_one⟩
      · rw [groupDecisionMaker_main slots pop h1 h2]
        have hbS : ∀ d ∈ slots.reduceOption.filter isSuccessful,
            0 ≤ d.confidence ∧ d.confidence ≤ 1 :=
          fun d hd => hb d (List.mem_filter.mp hd).1
        have hSne : slots.reduceOption.filter isSuccessful ≠ [] := by
          intro hc
          rw [hc] at h2
          exact h2 (by norm_num [minModels])
        unfold aggregateMain
        dsimp only
        rcases hA : (slots.reduceOption.filter isSuccessful).filter
            (fun d => decide (d.decision =
              determineFinalDecision (slots.reduceOption.filter isSuccessful)))
          with _ | ⟨a, tl⟩
        · rw [hA]
          exact avg_conf_bounds hSne hbS
        · rw [hA]
          have hbA : ∀ d ∈ a :: tl, 0 ≤ d.confidence ∧ d.confidence ≤ 1 := by
            intro d hd
            exact hbS d (List.mem_filter.mp (hA ▸ hd)).1
          exact avg_conf_bounds (by simp) hbA

/-- C2 witness: the bound theorems applied at concrete inputs. -/
theorem claim2_confidence_bounds_witness :
    (0 ≤ (groupDecisionMaker [some fallbackAgentDecision] 0).confidence ∧
      (groupDecisionMaker [some fallbackAgentDecision] 0).confidence ≤ 1) ∧
    (0 ≤ (groupDecisionMaker [] 0).consensus_score ∧
      (groupDecisionMaker [] 0).consensus_score ≤ 1) :=
  ⟨claim2_confidence_bounds.2.2 [some fallbackAgentDecision] 0
      (by with_unfolding_all decide),
   claim2_confidence_bounds.2.1 [] 0⟩

/-- C3 counterexample: a fragment-tier object with none of the required
fields is returned unvalidated, and the `KeyError` raised when the opinion is
constructed propagates out of the whole pipeline — it does not resolve into a
degraded opinion or a verdict. -/
theorem claim3_counterexample :
    runVerification [("m", ModelOutcome.fragment [("foo", JsonValue.num 1)])]
        0 = Except.error "KeyError: decision" := by
  with_unfolding_all rfl

/-- C3 (amended): the pipeline runs to completion with a verdict for every
combination of judge outcomes in which each fragment-tier object is fully
well typed and each strict-tier object that passes the required-field check
carries a string reasoning and a string-list evidence; timeouts, transport
failures and heuristic parses (including the case where every judge fails)
are always recovered. -/
theorem claim3_total_recovery (judges : List (String × ModelOutcome)) (pop : ℚ)
    (h : ∀ j ∈ judges, outcomeSafe j.2) :
    ∃ v, runVerification judges pop = Except.ok v := by
  have hdicts : ∀ r ∈ judges.map (fun j => (j.1, verifyWithModel j.1 j.2)),
      ∃ d, buildAgentDecision r.1 r.2 = Except.ok d := by
    intro r hr
    rw [List.mem_map] at hr
    obtain ⟨j, hj, rfl⟩ := hr
    exact build_verify_ok j.1 j.2 (h j hj)
  obtain ⟨ds, hds⟩ := buildAll_ok _ hdicts
  have heq : runVerification judges pop =
      Except.ok (groupDecisionMaker
        [(if ds.isEmpty then [fallbackAgentDecision] else ds).get? 0,
         (if ds.isEmpty then [fallbackAgentDecision] else ds).get? 1,
         (if ds.isEmpty then [fallbackAgentDecision] else ds).get? 2,
         (if ds.isEmpty then [fallbackAgentDecision] else ds).get? 3] pop) := by
    unfold runVerification multiModelVerification
    dsimp only
    rw [hds]
    rfl
  exact ⟨_, heq⟩

/-- C3 witness: a timed-out judge and an unparsable-text judge — both
recovered, the pipeline returns a verdict. -/
theorem claim3_total_recovery_witness :
    ∃ v, runVerification
      [("m1", ModelOutcome.failure "Timeout"),
       ("m2", ModelOutcome.noJson "gibberish")] 0 = Except.ok v :=
  claim3_total_recovery
    [("m1", ModelOutcome.failure "Timeout"),
     ("m2", ModelOutcome.noJson "gibberish")] 0
    (by
      intro j hj
      rcases List.mem_cons.mp hj with rfl | hj2
      · exact trivial
      · rcases List.mem_singleton.mp hj2 with rfl
        exact trivial)

/-- C6 counterexample: an opinion produced by a successful tier-1 parse
(hence not failed) with confidence 0.8 whose reasoning text contains the word
"failed" is classified as unsuccessful, and with a second genuine fake
opinion the verdict degrades to `uncertain` instead of the `fake` verdict the
claim's classification would give (2 successful `fake` opinions). -/
theorem claim6_counterexample :
    ((buildAgentDecision "m1" (verifyWithModel "m1" trickyOut)).toOption.map
        isSuccessful = some false) ∧
    ((buildAgentDecision "m1" (verifyWithModel "m1" trickyOut)).toOption.map
        (fun d => d.confidence) = some (4/5)) ∧
    (0 : ℚ) < 4/5 ∧
    ((runVerification [("m1", trickyOut), ("m2", fakeOut)] 0).toOption.map
        (fun v => v.final_decision) = some VerificationResult.uncertain) := by
  refine ⟨?_, ?_, by norm_num, ?_⟩
  · with_unfolding_all rfl
  · with_unfolding_all rfl
  · with_unfolding_all rfl

/-- C6 (amended): the aggregator classifies an opinion as successful exactly
when its confidence is strictly positive AND its lower-cased reasoning text
contains neither "failed" nor "timeout"; an opinion whose reasoning contains
"failed" is excluded from the tallies no matter how it was produced. -/
theorem claim6_successful_classification :
    (∀ d : AgentDecision, isSuccessful d = true ↔
      (0 < d.confidence ∧
        strContains (lowerString d.reasoning) "failed" = false ∧
        strContains (lowerString d.reasoning) "timeout" = false)) ∧
    (∀ d : AgentDecision,
      strContains (lowerString d.reasoning) "failed" = true →
        isSuccessful d = false) := by
  constructor
  · intro d
    unfold isSuccessful
    simp [Bool.and_eq_true, decide_eq_true_eq, Bool.not_eq_true', and_assoc]
  · intro d h
    unfold isSuccessful
    rw [h]
    simp

/-- C6 witness: the classification applied to a concrete opinion. -/
theorem claim6_successful_classification_witness :
    isSuccessful fallbackAgentDecision = true ↔
      (0 < fallbackAgentDecision.confidence ∧
        strContains (lowerString fallbackAgentDecision.reasoning) "failed" =
          false ∧
        strContains (lowerString fallbackAgentDecision.reasoning) "timeout" =
          false) :=
  claim6_successful_classification.1 fallbackAgentDecision


/-- C4 counterexample: with an empty opinion list (every slot `None`) the
aggregator still returns `uncertain` with confidence 0 and consensus 0, but
its rationale is the fixed string "No valid decisions from models", not a
rationale stating how many of how many judges succeeded (the counting
rationale for 0 of 0 would be `insufficientMsg 0 0`), so the claim's rationale
clause fails on the empty list. -/
theorem claim4_counterexample :
    (groupDecisionMaker [none, none, none, none] 0).final_decision =
      VerificationResult.uncertain ∧
    (groupDecisionMaker [none, none, none, none] 0).confidence = 0 ∧
    (groupDecisionMaker [none, none, none, none] 0).consensus_score = 0 ∧
    (groupDecisionMaker [none, none, none, none] 0).group_reasoning =
      "No valid decisions from models" ∧
    (groupDecisionMaker [none, none, none, none] 0).group_reasoning ≠
      insufficientMsg 0 0 := by
  refine ⟨rfl, rfl, rfl, rfl, ?_⟩
  with_unfolding_all decide

/-- C4 (amended): whenever fewer than `minModels = 2` of the stored opinions
are successful, the verdict is `uncertain` with confidence 0 and consensus
score 0, whatever the failed opinions contain; and when at least one opinion
is present the rationale is exactly the counting rationale stating how many
of how many stored opinions succeeded. -/
theorem claim4_quorum_gate (slots : List (Option AgentDecision)) (pop : ℚ)
    (h : (slots.reduceOption.filter isSuccessful).length < minModels) :
    (groupDecisionMaker slots pop).final_decision =
      VerificationResult.uncertain ∧
    (groupDecisionMaker slots pop).confidence = 0 ∧
    (groupDecisionMaker slots pop).consensus_score = 0 ∧
    (slots.reduceOption ≠ [] →
      (groupDecisionMaker slots pop).group_reasoning =
        insufficientMsg (slots.reduceOption.filter isSuccessful).length
          slots.reduceOption.length) := by
  by_cases h1 : slots.reduceOption = []
  · rw [groupDecisionMaker_empty slots pop h1]
    exact ⟨rfl, rfl, rfl, fun hc => absurd h1 hc⟩
  · rw [groupDecisionMaker_quorum slots pop h1 h]
    exact ⟨rfl, rfl, rfl, fun _ => rfl⟩

/-- C4 witness: one stored opinion, zero successful. -/
theorem claim4_quorum_gate_witness :
    (groupDecisionMaker [some fallbackAgentDecision, none, none, none]
        0).final_decision = VerificationResult.uncertain ∧
    (groupDecisionMaker [some fallbackAgentDecision, none, none, none]
        0).confidence = 0 ∧
    (groupDecisionMaker [some fallbackAgentDecision, none, none, none]
        0).consensus_score = 0 ∧
    ([some fallbackAgentDecision, none, none,
        none].reduceOption (α := AgentDecision) ≠ [] →
      (groupDecisionMaker [some fallbackAgentDecision, none, none, none]
          0).group_reasoning =
        insufficientMsg
          (([some fallbackAgentDecision, none, none,
              none].reduceOption).filter isSuccessful).length
          ([some fallbackAgentDecision, none, none,
              none].reduceOption).length) :=
  claim4_quorum_gate [some fallbackAgentDecision, none, none, none] 0
    (by with_unfolding_all decide)

/-- C5: whenever the aggregated verdict is `authentic` or `fake`, some stored
opinion is successful, carries that same decision, and has confidence at
least `minConfidenceThreshold = 0.6`; no decision class wins on weight or
count alone. -/
theorem claim5_high_confidence_gating (slots : List (Option AgentDecision))
    (pop : ℚ)
    (h : (groupDecisionMaker slots pop).final_decision =
        VerificationResult.authentic ∨
      (groupDecisionMaker slots pop).final_decision =
        VerificationResult.fake) :
    ∃ d ∈ (groupDecisionMaker slots pop).individual_decisions,
      isSuccessful d = true ∧
      d.decision = (groupDecisionMaker slots pop).final_decision ∧
      minConfidenceThreshold ≤ d.confidence := by
  by_cases h1 : slots.reduceOption = []
  · rw [groupDecisionMaker_empty slots pop h1] at h
    rcases h with h | h <;> exact absurd h (by simp)
  · by_cases h2 : (slots.reduceOption.filter isSuccessful).length < minModels
    · rw [groupDecisionMaker_quorum slots pop h1 h2] at h
      rcases h with h | h <;> exact absurd h (by simp)
    · rw [groupDecisionMaker_main slots pop h1 h2] at h ⊢
      rw [aggregateMain_final] at h ⊢
      rw [aggregateMain_individual]
      have hr : determineFinalDecision
          (slots.reduceOption.filter isSuccessful) ≠
            VerificationResult.uncertain := by
        rcases h with h | h <;> rw [h] <;> simp
      obtain ⟨d, hmem, hdec, hconf⟩ := determine_high_conf hr rfl
      have hmem2 := List.mem_filter.mp hmem
      exact ⟨d, hmem2.1, hmem2.2, hdec, hconf⟩

/-- C5 witness: two successful high-confidence fake opinions yield a `fake`
verdict with a qualifying supporter. -/
theorem claim5_high_confidence_gating_witness :
    ∃ d ∈ (groupDecisionMaker [some opFakeA, some opFakeB, none, none]
        0).individual_decisions,
      isSuccessful d = true ∧
      d.decision = (groupDecisionMaker [some opFakeA, some opFakeB, none, none]
          0).final_decision ∧
      minConfidenceThreshold ≤ d.confidence :=
  claim5_high_confidence_gating [some opFakeA, some opFakeB, none, none] 0
    (Or.inr (by with_unfolding_all rfl))

/-- C7: on any raw text on which both structured tiers fail, the heuristic
tier lower-cases the text and yields: `authentic` with confidence 0.6 when an
authenticity keyword ("authentic", "real", "genuine") occurs, else `fake`
with confidence 0.6 when "fake", "false" or "misleading" occurs, else
`uncertain` with confidence 0.3; the evidence list is always empty, and the
resulting opinion always constructs without error. -/
theorem claim7_heuristic_tier (text model : String) :
    ∃ d, buildAgentDecision model (verifyWithModel model (.noJson text)) =
        Except.ok d ∧
      d.decision =
        (if (strContains (lowerString text) "authentic" ||
            strContains (lowerString text) "real" ||
            strContains (lowerString text) "genuine") = true then
          VerificationResult.authentic
         else if (strContains (lowerString text) "fake" ||
            strContains (lowerString text) "false" ||
            strContains (lowerString text) "misleading") = true then
          VerificationResult.fake
         else VerificationResult.uncertain) ∧
      d.confidence =
        (if (strContains (lowerString text) "authentic" ||
            strContains (lowerString text) "real" ||
            strContains (lowerString text) "genuine") = true then (6/10 : ℚ)
         else if (strContains (lowerString text) "fake" ||
            strContains (lowerString text) "false" ||
            strContains (lowerString text) "misleading") = true then (6/10 : ℚ)
         else (3/10 : ℚ)) ∧
      d.evidence = [] := by
  show ∃ d, buildAgentDecision model (parseTextResponse text model) = _ ∧ _
  unfold parseTextResponse
  dsimp only
  split_ifs
  · exact ⟨_, build_mk_authentic model _ _ [], rfl, rfl, rfl⟩
  · exact ⟨_, build_mk_fake model _ _ [], rfl, rfl, rfl⟩
  · exact ⟨_, build_mk_uncertain model _ _ [], rfl, rfl, rfl⟩

/-- C8: the reward scaler computes exactly
`min(MAX_REWARD, BASE_FEE * (1 + p * (MAX_MULTIPLIER - 1)))` with
`BASE_FEE = 0.05`, `MAX_MULTIPLIER = 5`, `MAX_REWARD = 1`; and the verdict's
`dynamic_reward` is 0 whenever the final decision is not `fake`, and equals
the scaler's value on the popularity score when it is `fake`. -/
theorem claim8_reward_scaler :
    (∀ p : ℚ, 0 ≤ p → p ≤ 1 →
      calculateDynamicReward p = min 1 ((1/20) * (1 + p * (5 - 1)))) ∧
    (∀ (slots : List (Option AgentDecision)) (pop : ℚ),
      (groupDecisionMaker slots pop).final_decision ≠
          VerificationResult.fake →
        (groupDecisionMaker slots pop).dynamic_reward = 0) ∧
    (∀ (slots : List (Option AgentDecision)) (pop : ℚ),
      (groupDecisionMaker slots pop).final_decision =
          VerificationResult.fake →
        (groupDecisionMaker slots pop).dynamic_reward =
          calculateDynamicReward pop) := by
  refine ⟨?_, ?_, ?_⟩
  · intro p _ _
    unfold calculateDynamicReward
    dsimp only
    rw [min_comm]
    norm_num
  · intro slots pop h
    by_cases h1 : slots.reduceOption = []
    · rw [groupDecisionMaker_empty slots pop h1]
    · by_cases h2 : (slots.reduceOption.filter isSuccessful).length < minModels
      · rw [groupDecisionMaker_quorum slots pop h1 h2]
      · rw [groupDecisionMaker_main slots pop h1 h2] at h ⊢
        rw [aggregateMain_final] at h
        rw [aggregateMain_reward, if_neg h]
  · intro slots pop h
    by_cases h1 : slots.reduceOption = []
    · rw [groupDecisionMaker_empty slots pop h1] at h
      exact absurd h (by simp)
    · by_cases h2 : (slots.reduceOption.filter isSuccessful).length < minModels
      · rw [groupDecisionMaker_quorum slots pop h1 h2] at h
        exact absurd h (by simp)
      · rw [groupDecisionMaker_main slots pop h1 h2] at h ⊢
        rw [aggregateMain_final] at h
        rw [aggregateMain_reward, if_pos h]

/-- C8 witness: the scaler formula at `p = 1/2` and the zero reward of an
`uncertain` verdict. -/
theorem claim8_reward_scaler_witness :
    calculateDynamicReward (1/2) = min 1 ((1/20) * (1 + (1/2 : ℚ) * (5 - 1))) ∧
    (groupDecisionMaker [] 0).dynamic_reward = 0 :=
  ⟨claim8_reward_scaler.1 (1/2) (by norm_num) (by norm_num),
   claim8_reward_scaler.2.1 [] 0 (by
    rw [groupDecisionMaker_empty [] 0 rfl]
    simp)⟩

/-- C10: the popularity score of any content text is clamped into `[0, 1]`
before being returned, and the error-path default 0.5 also lies in `[0, 1]`,
so the reward scaler's precondition holds whenever it is invoked from the
aggregator. -/
theorem claim10_popularity_bounds (contentText : String) :
    0 ≤ calculatePopularityScore contentText ∧
    calculatePopularityScore contentText ≤ 1 ∧
    0 ≤ popularityErrorDefault ∧ popularityErrorDefault ≤ 1 := by
  refine ⟨?_, ?_, by norm_num [popularityErrorDefault],
    by norm_num [popularityErrorDefault]⟩
  · unfold calculatePopularityScore
    dsimp only
    exact le_max_left 0 _
  · unfold calculatePopularityScore
    dsimp only
    exact max_le (by norm_num) (min_le_left 1 _)

end Report2Earn
